import Mathlib

/-!
Verification development for the tuifeed article-detail viewer and
configuration bootstrap (src/ui/components/article.rs and
src/helpers/path.rs), embedded shallowly: Rust strings become `List Char`,
filesystem interaction becomes an explicit finite map with an operation
trace, and the TUI component becomes a pure transition function from
events to (state, emitted message).

Paths are modelled as component lists plus a trailing-slash flag, because
`init_config_dir` pushes the literal `"tuifeed/"` and POSIX path
resolution treats a trailing slash as a directory requirement: `stat` on
`entry/` fails with ENOTDIR when `entry` is a plain file, which is exactly
what the repository's own test `should_fail_getting_config_dir`
exercises. Every filesystem-touching operation is recorded in a trace so
that frame claims ("no second probe") are statable.
-/

namespace Tuifeed

/-! ## Text reflow (ArticleSummary::make_summary_rows) -/

/-- Rust `char::is_whitespace`: the Unicode White_Space property. -/
def isRustWhitespace (c : Char) : Bool :=
  let n := c.toNat
  (0x09 ≤ n && n ≤ 0x0D) || n == 0x20 || n == 0x85 || n == 0xA0 ||
  n == 0x1680 || (0x2000 ≤ n && n ≤ 0x200A) || n == 0x2028 || n == 0x2029 ||
  n == 0x202F || n == 0x205F || n == 0x3000

/-- Rust `str::trim_matches('\n')`: strip leading and trailing newline
characters. -/
def trimMatchesNewline (l : List Char) : List Char :=
  ((l.dropWhile (fun c => c == '\n')).reverse.dropWhile
    (fun c => c == '\n')).reverse

/-- Rust `str::trim`: strip leading and trailing whitespace. -/
def rustTrim (l : List Char) : List Char :=
  ((l.dropWhile isRustWhitespace).reverse.dropWhile isRustWhitespace).reverse

/-- Emit a pending run of `n` consecutive newline characters: a run of two
or more is replaced by `rep`, a single newline is kept, an empty run emits
nothing. -/
def flushNewlines (rep : List Char) : Nat → List Char
  | 0 => []
  | 1 => ['\n']
  | _ + 2 => rep

/-- Worker for `replace_multiple_newlines`; `n` counts the newline
characters read but not yet emitted. -/
def rmnAux (rep : List Char) : Nat → List Char → List Char
  | n, [] => flushNewlines rep n
  | n, c :: rest =>
      if c == '\n' then rmnAux rep (n + 1) rest
      else flushNewlines rep n ++ c :: rmnAux rep 0 rest

/-- Modelled from the spec: `helpers/strings.rs` is not under `src/`.
§4.1 step 2: "Collapse any run of two or more consecutive newline
characters into exactly one newline"; the source calls
`str_helpers::replace_multiple_newlines(s, "\n")`, so the replacement text
is a parameter. -/
def replace_multiple_newlines (l rep : List Char) : List Char :=
  rmnAux rep 0 l

/-- Rust `str::split(sep)`: always yields at least one (possibly empty)
piece. -/
def splitOnChar (sep : Char) : List Char → List (List Char)
  | [] => [[]]
  | c :: rest =>
      if c == sep then [] :: splitOnChar sep rest
      else
        match splitOnChar sep rest with
        | [] => [[c]]
        | r :: rs => (c :: r) :: rs

/-- Content of a `tuirealm::props::TextSpan`; `TextSpan::from` sets only
the content, leaving default attributes, so only the content is
modelled. -/
structure TextSpan where
  content : List Char
deriving DecidableEq, Repr

/-- Rust `TextSpan::from(&str)`. -/
def TextSpan.fromStr (l : List Char) : TextSpan := ⟨l⟩

/-- Source `ArticleSummary::make_summary_rows` (article.rs 156-161):
trim newlines, trim whitespace, collapse multiple newlines, then split on
newline into one `TextSpan` per line. -/
def make_summary_rows (summary : List Char) : List TextSpan :=
  let s := replace_multiple_newlines (rustTrim (trimMatchesNewline summary))
    ['\n']
  (splitOnChar '\n' s).map TextSpan.fromStr

/-! ## ArticleSummary event handling (Component::on, article.rs 164-212) -/

/-- Messages of `super::Msg` used by the article components. -/
inductive Msg
  | None
  | ArticleBlur
  | OpenArticle
deriving DecidableEq, Repr

/-- Rust `tuirealm::command::Direction` (the cases used here). -/
inductive Direction
  | Down
  | Up
deriving DecidableEq, Repr

/-- Rust `tuirealm::command::Position` (the cases used here). -/
inductive Position
  | Begin
  | End
deriving DecidableEq, Repr

/-- Rust `tuirealm::command::Cmd` (the cases used here). -/
inductive Cmd
  | Scroll (d : Direction)
  | GoTo (p : Position)
deriving DecidableEq, Repr

/-- Rust `tuirealm::event::Key`: the eight codes the component recognizes
plus representatives of every other keyboard input. -/
inductive Key
  | Down
  | Up
  | PageDown
  | PageUp
  | Home
  | End
  | Left
  | Enter
  | Right
  | Esc
  | Tab
  | Backspace
  | Delete
  | Char (c : Char)
  | Function (n : Nat)
deriving DecidableEq, Repr

/-- Rust `tuirealm::event::KeyEvent`: a key code plus modifier flags (the
component matches only the code, ignoring modifiers via `..`). -/
structure KeyEvent where
  code : Key
  modifiers : Nat
deriving DecidableEq, Repr

/-- Rust `tuirealm::Event<NoUserEvent>`: keyboard events plus the
non-keyboard events the framework can deliver. -/
inductive Event
  | Keyboard (k : KeyEvent)
  | WindowResize (w h : Nat)
  | FocusGained
  | FocusLost
  | Tick
deriving DecidableEq, Repr

/-- Modelled from the spec: the scroll state lives in the external
`tui_realm_stdlib::Textarea`, not in this repository. §4.2: a single
scalar scroll position with no upper bound enforced by the component;
`End` targets the last row, so the row count is part of the state. -/
structure TextareaState where
  scrollPos : Nat
  rowCount : Nat
deriving DecidableEq, Repr

/-- Modelled from the spec: `Textarea::perform` is external library code.
§4.2 transition table: Scroll Down adds one (no upper bound here), Scroll
Up subtracts one flooring at zero, GoTo Begin resets to zero, GoTo End
jumps to the last row index. -/
def textareaPerform (s : TextareaState) : Cmd → TextareaState
  | Cmd.Scroll Direction.Down => { s with scrollPos := s.scrollPos + 1 }
  | Cmd.Scroll Direction.Up => { s with scrollPos := s.scrollPos - 1 }
  | Cmd.GoTo Position.Begin => { s with scrollPos := 0 }
  | Cmd.GoTo Position.End => { s with scrollPos := s.rowCount - 1 }

/-- Source `impl Component for ArticleSummary`, `fn on` (article.rs
164-212): each `self.perform(cmd)` becomes an application of
`textareaPerform`; the returned `Option<Msg>` is the emitted intent. -/
def ArticleSummary.on (s : TextareaState) (ev : Event) :
    TextareaState × Option Msg :=
  match ev with
  | Event.Keyboard ⟨Key.Down, _⟩ =>
      (textareaPerform s (Cmd.Scroll Direction.Down), some Msg.None)
  | Event.Keyboard ⟨Key.Up, _⟩ =>
      (textareaPerform s (Cmd.Scroll Direction.Up), some Msg.None)
  | Event.Keyboard ⟨Key.PageDown, _⟩ =>
      (textareaPerform (textareaPerform s (Cmd.Scroll Direction.Down))
        (Cmd.Scroll Direction.Down), some Msg.None)
  | Event.Keyboard ⟨Key.PageUp, _⟩ =>
      (textareaPerform (textareaPerform s (Cmd.Scroll Direction.Up))
        (Cmd.Scroll Direction.Up), some Msg.None)
  | Event.Keyboard ⟨Key.Home, _⟩ =>
      (textareaPerform s (Cmd.GoTo Position.Begin), some Msg.None)
  | Event.Keyboard ⟨Key.End, _⟩ =>
      (textareaPerform s (Cmd.GoTo Position.End), some Msg.None)
  | Event.Keyboard ⟨Key.Left, _⟩ => (s, some Msg.ArticleBlur)
  | Event.Keyboard ⟨Key.Enter, _⟩ => (s, some Msg.OpenArticle)
  | _ => (s, none)

/-- Keys with a dedicated match arm in `on`: the eight recognized
codes. -/
def recognizedKey : Key → Bool
  | Key.Down => true
  | Key.Up => true
  | Key.PageDown => true
  | Key.PageUp => true
  | Key.Home => true
  | Key.End => true
  | Key.Left => true
  | Key.Enter => true
  | _ => false

/-- Events handled by a non-wildcard arm of `on`: keyboard events whose
code is one of the eight recognized keys. -/
def recognizedEvent : Event → Bool
  | Event.Keyboard k => recognizedKey k.code
  | _ => false

/-! ## Configuration bootstrap (helpers/path.rs) -/

/-- Model of `std::path::PathBuf`: path components plus whether the
textual path ends with a separator. -/
structure RPath where
  comps : List String
  trailingSlash : Bool
deriving DecidableEq, Repr

/-- Rust `PathBuf::push` of one textual segment, keeping track of a
trailing separator on the pushed segment. -/
def RPath.push (p : RPath) (s : String) : RPath :=
  if s.data.getLast? = some '/' then
    ⟨p.comps ++ [String.mk s.data.dropLast], true⟩
  else ⟨p.comps ++ [s], false⟩

/-- Filesystem entry: a plain file with its content, or a directory. -/
inductive FsEntry
  | file (content : String)
  | dir
deriving DecidableEq, Repr

/-- Filesystem state: an association list from absolute component lists to
entries. -/
structure FS where
  entries : List (List String × FsEntry)
deriving DecidableEq, Repr

/-- Look up the entry stored at a component list. -/
def FS.lookup (fs : FS) (k : List String) : Option FsEntry :=
  (fs.entries.find? (fun e => e.1 = k)).map (fun e => e.2)

/-- Whether the parent of `comps` can hold a new entry: the root always
can; otherwise the parent components must name a directory. -/
def FS.parentOk (fs : FS) (comps : List String) : Bool :=
  match comps.dropLast with
  | [] => true
  | pc => decide (fs.lookup pc = some FsEntry.dir)

/-- Rust `Path::exists` (a `stat` probe): false when nothing is stored at
the components, and — per POSIX trailing-slash resolution — false when the
path ends with a separator but the entry is a plain file (ENOTDIR). -/
def FS.pathExists (fs : FS) (p : RPath) : Bool :=
  match fs.lookup p.comps with
  | none => false
  | some FsEntry.dir => true
  | some (FsEntry.file _) => !p.trailingSlash

/-- Rust `std::fs::create_dir`: fails with EEXIST when any entry is
already stored at the components, with ENOENT when the parent is missing
or not a directory, and otherwise records a new directory. -/
def FS.create_dir (fs : FS) (p : RPath) : Except String FS :=
  match fs.lookup p.comps with
  | some _ => Except.error "File exists (os error 17)"
  | none =>
      if fs.parentOk p.comps then
        Except.ok ⟨(p.comps, FsEntry.dir) :: fs.entries⟩
      else Except.error "No such file or directory (os error 2)"

/-- One observable filesystem-touching step of the bootstrap. -/
inductive FsOp
  | platformLookup
  | existsProbe (p : RPath)
  | createDir (p : RPath)
  | writeFile (p : RPath)
deriving DecidableEq, Repr

/-- Process-wide state: the `lazy_static` cell `CONF_DIR` (empty until the
first evaluation) and the filesystem. -/
structure ProcState where
  conf_dir_cache : Option (Option RPath)
  fs : FS
deriving DecidableEq, Repr

/-- Source `init_config_dir` (path.rs 35-61). `platform` is what
`dirs::config_dir()` would return; the `lazy_static` cell evaluates it at
most once. If the cached root is present the source pushes `"tuifeed/"`,
returns the path when `exists()` reports it, and otherwise attempts
`create_dir`, surfacing the OS error. If the platform offers no root the
call succeeds with no path. The trace lists the platform lookup (when
evaluated) and every filesystem probe of this call. -/
def init_config_dir (platform : Option RPath) (st : ProcState) :
    Except String (Option RPath) × ProcState × List FsOp :=
  let cached :=
    match st.conf_dir_cache with
    | some v => (v, st, ([] : List FsOp))
    | none => (platform, { st with conf_dir_cache := some platform },
        [FsOp.platformLookup])
  match cached with
  | (some root, st1, tr) =>
      let p := root.push "tuifeed/"
      match st1.fs.pathExists p with
      | true => (Except.ok (some p), st1, tr ++ [FsOp.existsProbe p])
      | false =>
          match st1.fs.create_dir p with
          | Except.ok fs2 => (Except.ok (some p), { st1 with fs := fs2 },
              tr ++ [FsOp.existsProbe p, FsOp.createDir p])
          | Except.error e => (Except.error e, st1,
              tr ++ [FsOp.existsProbe p, FsOp.createDir p])
  | (none, st1, tr) => (Except.ok none, st1, tr)

/-- Default configuration template written by `init_config_file`
(path.rs 84-87), byte for byte. -/
def default_config_template : String :=
  "[sources]\n# Write here the sources you want to get the feed from following the example below\n# New_York_Times = \"https://rss.nytimes.com/services/xml/rss/nyt/World.xml\"\n"

/-- Template as the spec's §6 block spells it out, to compare with the
source literal. -/
def spec_default_template : String :=
  "[sources]\n" ++
  "# Write here the sources you want to get the feed from following the example below\n" ++
  "# New_York_Times = \"https://rss.nytimes.com/services/xml/rss/nyt/World.xml\"\n"

/-- Modelled from the spec: `helpers/file.rs` (`write_file`) is not under
`src/`. §4.4: the file "is created with a fixed default template... If
creation fails, the error is surfaced"; creation fails for an OS-level
reason such as the parent not being a usable directory. -/
def write_file (fs : FS) (p : RPath) (content : String) :
    Except String FS :=
  if fs.parentOk p.comps then
    Except.ok ⟨(p.comps, FsEntry.file content) :: fs.entries⟩
  else Except.error "No such file or directory (os error 2)"

/-- Source `init_config_file` (path.rs 81-90): write the default
template. -/
def init_config_file (fs : FS) (p : RPath) : Except String FS :=
  write_file fs p default_config_template

/-- Body of `get_config_file` once the file path is resolved: create the
file with the default template when it does not exist, and return the
path. The trace records the probe and any write. -/
def get_config_file_at (fs : FS) (cfg_file : RPath) :
    Except String RPath × FS × List FsOp :=
  match fs.pathExists cfg_file with
  | false =>
      match init_config_file fs cfg_file with
      | Except.ok fs2 => (Except.ok cfg_file, fs2,
          [FsOp.existsProbe cfg_file, FsOp.writeFile cfg_file])
      | Except.error e => (Except.error e, fs,
          [FsOp.existsProbe cfg_file, FsOp.writeFile cfg_file])
  | true => (Except.ok cfg_file, fs, [FsOp.existsProbe cfg_file])

/-- Source `get_config_file` (path.rs 67-76): append `config.toml` to the
directory and delegate to the body above. -/
def get_config_file (fs : FS) (config_dir : RPath) :
    Except String RPath × FS × List FsOp :=
  get_config_file_at fs (config_dir.push "config.toml")

/-- Decidable equality for `Except`, so concrete runs of the bootstrap can
be checked by evaluation. -/
instance exceptDecidableEq {e a : Type} [DecidableEq e] [DecidableEq a] :
    DecidableEq (Except e a)
  | Except.ok x, Except.ok y => decidable_of_iff (x = y) (by simp)
  | Except.ok _, Except.error _ => isFalse (by simp)
  | Except.error _, Except.ok _ => isFalse (by simp)
  | Except.error x, Except.error y => decidable_of_iff (x = y) (by simp)

/-- Fixture: a filesystem holding only the directory `/tmp`. -/
def fsTmpOnly : FS := ⟨[(["tmp"], FsEntry.dir)]⟩

/-- Fixture: `/tmp` plus a plain file at `/tmp/tuifeed`, the situation the
repository's test `should_fail_getting_config_dir` constructs. -/
def fsTmpWithTuifeedFile : FS :=
  ⟨[(["tmp"], FsEntry.dir),
    (["tmp", "tuifeed"], FsEntry.file "Hello world!\n")]⟩

/-- Fixture: a user config root plus a plain file at its `tuifeed`
entry. -/
def fsHomeWithTuifeedFile : FS :=
  ⟨[(["home", "user", ".config"], FsEntry.dir),
    (["home", "user", ".config", "tuifeed"], FsEntry.file "stale")]⟩

/-! ## Helper lemmas -/

theorem splitOnChar_ne_nil (sep : Char) (l : List Char) :
    splitOnChar sep l ≠ [] := by
  cases l with
  | nil => simp [splitOnChar]
  | cons c rest =>
      simp only [splitOnChar]
      by_cases h : (c == sep) = true
      · simp [h]
      · simp only [h]
        cases splitOnChar sep rest <;> simp

theorem dropWhile_all_eq_nil {p : Char → Bool} {l : List Char}
    (h : ∀ c ∈ l, p c = true) : l.dropWhile p = [] := by
  induction l with
  | nil => rfl
  | cons c rest ih =>
      rw [List.dropWhile_cons]
      simp only [h c (List.mem_cons_self c rest), if_true]
      exact ih fun x hx => h x (List.mem_cons_of_mem c hx)

theorem mem_of_mem_dropWhile {p : Char → Bool} {l : List Char} {x : Char}
    (h : x ∈ l.dropWhile p) : x ∈ l :=
  (List.dropWhile_sublist p).mem h

theorem rustTrim_of_all_whitespace {l : List Char}
    (h : ∀ c ∈ l, isRustWhitespace c = true) : rustTrim l = [] := by
  unfold rustTrim
  rw [dropWhile_all_eq_nil h]
  rfl

theorem trimMatchesNewline_mem {l : List Char} {x : Char}
    (h : x ∈ trimMatchesNewline l) : x ∈ l := by
  unfold trimMatchesNewline at h
  rw [List.mem_reverse] at h
  have h1 := mem_of_mem_dropWhile h
  rw [List.mem_reverse] at h1
  exact mem_of_mem_dropWhile h1

theorem push_tuifeed (root : RPath) :
    root.push "tuifeed/" = ⟨root.comps ++ ["tuifeed"], true⟩ := by
  unfold RPath.push
  rw [if_pos (by decide)]
  have hstr : String.mk ("tuifeed/".data.dropLast) = "tuifeed" := by decide
  rw [hstr]

theorem push_config_toml (dir : RPath) :
    dir.push "config.toml" = ⟨dir.comps ++ ["config.toml"], false⟩ := by
  unfold RPath.push
  rw [if_neg (by decide)]

theorem pathExists_create_dir {fs fs2 : FS} {p q : RPath}
    (hcomps : q.comps = p.comps) (h : fs.create_dir p = Except.ok fs2) :
    fs2.pathExists q = true := by
  unfold FS.create_dir at h
  cases hl : fs.lookup p.comps with
  | some e => rw [hl] at h; exact absurd h (by simp)
  | none =>
      rw [hl] at h
      by_cases hpk : fs.parentOk p.comps = true
      · rw [if_pos hpk] at h
        have hfs2 : fs2 = ⟨(p.comps, FsEntry.dir) :: fs.entries⟩ :=
          (Except.ok.inj h).symm
        subst hfs2
        unfold FS.pathExists FS.lookup
        simp [List.find?_cons, hcomps]
      · rw [if_neg hpk] at h
        exact absurd h (by simp)

/-! ## Claims about the reflow -/

/-- C1 (counterexample): the claim "an empty or whitespace-only body
yields zero rows" is false at the empty body: `make_summary_rows ""`
yields exactly one row (an empty one), because splitting the empty string
on newlines yields one empty piece. -/
theorem make_summary_rows_empty_not_zero_rows :
    make_summary_rows "".toList ≠ [] ∧
    make_summary_rows "".toList = [TextSpan.fromStr []] := by
  constructor
  · decide
  · decide

/-- C1 (amended): for every body that is empty or consists only of
whitespace characters, `make_summary_rows` yields exactly one row, whose
content is the empty string (one blank row, not zero rows). -/
theorem make_summary_rows_whitespace_only (l : List Char)
    (h : ∀ c ∈ l, isRustWhitespace c = true) :
    make_summary_rows l = [TextSpan.fromStr []] := by
  have htrim : rustTrim (trimMatchesNewline l) = [] :=
    rustTrim_of_all_whitespace fun c hc => h c (trimMatchesNewline_mem hc)
  unfold make_summary_rows
  rw [htrim]
  rfl

/-- C1 (witness): the amended claim at the concrete whitespace-only body
consisting of a space, a newline and a tab. -/
theorem make_summary_rows_whitespace_only_witness :
    make_summary_rows " \n\t".toList = [TextSpan.fromStr []] :=
  make_summary_rows_whitespace_only " \n\t".toList (by decide)

/-- C5: reflowing the body "Hello\n\n\n\nWorld" (three blank lines between
the words, i.e. four consecutive newline characters) yields exactly the
two rows "Hello" and "World". -/
theorem make_summary_rows_hello_world :
    make_summary_rows "Hello\n\n\n\nWorld".toList =
      [TextSpan.fromStr "Hello".toList, TextSpan.fromStr "World".toList] := by
  decide

/-- C10: for every input string, `make_summary_rows` returns at least one
row — splitting any string on newlines yields at least one piece, so the
row count is never zero. -/
theorem make_summary_rows_length_pos (l : List Char) :
    1 ≤ (make_summary_rows l).length := by
  unfold make_summary_rows
  rw [List.length_map]
  have h := splitOnChar_ne_nil '\n'
    (replace_multiple_newlines (rustTrim (trimMatchesNewline l)) ['\n'])
  exact Nat.one_le_iff_ne_zero.mpr (fun hlen => h (List.length_eq_zero.mp hlen))

/-! ## Claims about the event handler -/

/-- C4: for every component state and modifier set, Page Down produces
exactly the state reached by two consecutive Down events and Page Up the
state reached by two consecutive Up events, and in each case the emitted
intent is `Msg::None`. -/
theorem on_page_is_two_steps (s : TextareaState) (m m1 m2 : Nat) :
    ArticleSummary.on s (Event.Keyboard ⟨Key.PageDown, m⟩) =
      ((ArticleSummary.on
          (ArticleSummary.on s (Event.Keyboard ⟨Key.Down, m1⟩)).1
          (Event.Keyboard ⟨Key.Down, m2⟩)).1, some Msg.None) ∧
    ArticleSummary.on s (Event.Keyboard ⟨Key.PageUp, m⟩) =
      ((ArticleSummary.on
          (ArticleSummary.on s (Event.Keyboard ⟨Key.Up, m1⟩)).1
          (Event.Keyboard ⟨Key.Up, m2⟩)).1, some Msg.None) :=
  ⟨rfl, rfl⟩

/-- C6: for every component state and modifier set, a Left key event
emits the Blur intent (`Msg::ArticleBlur`) leaving the scroll state
unchanged, and an Enter key event emits the OpenLink intent
(`Msg::OpenArticle`) leaving the scroll state unchanged. -/
theorem on_left_enter (s : TextareaState) (m : Nat) :
    ArticleSummary.on s (Event.Keyboard ⟨Key.Left, m⟩) =
      (s, some Msg.ArticleBlur) ∧
    ArticleSummary.on s (Event.Keyboard ⟨Key.Enter, m⟩) =
      (s, some Msg.OpenArticle) :=
  ⟨rfl, rfl⟩

/-- C7: the event handler is total; for every event that is not a
keyboard event with one of the eight recognized codes — including
non-keyboard events — the state is unchanged and no intent is emitted. -/
theorem on_unrecognized_noop (s : TextareaState) (ev : Event)
    (h : recognizedEvent ev = false) :
    ArticleSummary.on s ev = (s, none) := by
  cases ev with
  | Keyboard k =>
      obtain ⟨code, mods⟩ := k
      cases code <;> first
        | rfl
        | exact absurd h (by simp [recognizedEvent, recognizedKey])
  | WindowResize w h => rfl
  | FocusGained => rfl
  | FocusLost => rfl
  | Tick => rfl

/-- C7 (witness): the no-op claim at the concrete non-keyboard Tick event
and the state with scroll position 3 over 7 rows. -/
theorem on_unrecognized_noop_witness :
    recognizedEvent Event.Tick = false ∧
    ArticleSummary.on ⟨3, 7⟩ Event.Tick = (⟨3, 7⟩, none) :=
  ⟨by decide, on_unrecognized_noop ⟨3, 7⟩ Event.Tick (by decide)⟩

/-! ## Claims about the configuration bootstrap -/

/-- C2 (counterexample): the claim "when the target directory path exists
as a plain file, `init_config_dir` still succeeds and returns that path"
is false at a filesystem holding a plain file at `/tmp/tuifeed`: the call
returns an EEXIST error, exactly as the repository's own test
`should_fail_getting_config_dir` asserts, because the trailing-slash
existence probe does not report a plain file as existing and directory
creation then collides with it. -/
theorem init_config_dir_plain_file_cex :
    (init_config_dir (some ⟨["tmp"], false⟩)
        ⟨none, fsTmpWithTuifeedFile⟩).1 =
      Except.error "File exists (os error 17)" ∧
    (init_config_dir (some ⟨["tmp"], false⟩)
        ⟨none, fsTmpWithTuifeedFile⟩).1 ≠
      Except.ok (some ⟨["tmp", "tuifeed"], true⟩) := by
  constructor
  · decide
  · decide

/-- C2 (amended): whenever the target configuration path exists as a plain
file, `init_config_dir` fails with the EEXIST error rather than
succeeding: the existence check uses the trailing-slash path `tuifeed/`,
which a plain file does not satisfy, so directory creation is attempted
and fails. -/
theorem init_config_dir_plain_file_errors (root : RPath) (fs : FS)
    (c : String)
    (h : fs.lookup (root.comps ++ ["tuifeed"]) = some (FsEntry.file c)) :
    (init_config_dir (some root) ⟨none, fs⟩).1 =
      Except.error "File exists (os error 17)" := by
  unfold init_config_dir
  simp only [push_tuifeed]
  unfold FS.pathExists FS.create_dir
  simp [h]

/-- C2 (witness): the amended claim at a concrete user configuration root
whose `tuifeed` entry is a stale plain file. -/
theorem init_config_dir_plain_file_errors_witness :
    (init_config_dir (some ⟨["home", "user", ".config"], false⟩)
        ⟨none, fsHomeWithTuifeedFile⟩).1 =
      Except.error "File exists (os error 17)" :=
  init_config_dir_plain_file_errors ⟨["home", "user", ".config"], false⟩
    fsHomeWithTuifeedFile "stale" (by decide)

/-- C3 (counterexample): the claim "a second `init_config_dir` call
performs no further filesystem access" is false at a fresh `/tmp`
configuration: the second call's trace contains an existence probe (the
`lazy_static` cell caches only the platform lookup; the body re-runs
`exists()` on every call). -/
theorem init_config_dir_second_call_cex :
    (init_config_dir (some ⟨["tmp"], false⟩)
        (init_config_dir (some ⟨["tmp"], false⟩) ⟨none, fsTmpOnly⟩).2.1).2.2 =
      [FsOp.existsProbe ⟨["tmp", "tuifeed"], true⟩] ∧
    (init_config_dir (some ⟨["tmp"], false⟩)
        (init_config_dir (some ⟨["tmp"], false⟩) ⟨none, fsTmpOnly⟩).2.1).2.2 ≠
      [] := by
  constructor
  · decide
  · decide

/-- C3 (amended): after a first call that resolved a configuration path,
a second `init_config_dir` call returns the identical path and does not
re-evaluate the platform lookup, but it does touch the filesystem again:
its trace is exactly one existence probe of that path. -/
theorem init_config_dir_second_call (platform : Option RPath)
    (st : ProcState) (p : RPath)
    (h : (init_config_dir platform st).1 = Except.ok (some p)) :
    (init_config_dir platform (init_config_dir platform st).2.1).1 =
      Except.ok (some p) ∧
    (init_config_dir platform (init_config_dir platform st).2.1).2.2 =
      [FsOp.existsProbe p] := by
  obtain ⟨cache, fs⟩ := st
  cases cache with
  | none =>
      cases platform with
      | none => simp [init_config_dir] at h
      | some root =>
          unfold init_config_dir at h ⊢
          simp only at h ⊢
          cases hex : fs.pathExists (root.push "tuifeed/") with
          | true =>
              rw [hex] at h
              simp only at h
              have hpp : p = root.push "tuifeed/" :=
                (Option.some.inj (Except.ok.inj h)).symm
              subst hpp
              simp [hex]
          | false =>
              rw [hex] at h
              cases hcd : fs.create_dir (root.push "tuifeed/") with
              | error e => rw [hcd] at h; simp at h
              | ok fs2 =>
                  rw [hcd] at h
                  simp only at h
                  have hpp : p = root.push "tuifeed/" :=
                    (Option.some.inj (Except.ok.inj h)).symm
                  subst hpp
                  have hex2 : fs2.pathExists (root.push "tuifeed/") = true :=
                    pathExists_create_dir rfl hcd
                  simp [hex, hcd, hex2]
  | some v =>
      cases v with
      | none => simp [init_config_dir] at h
      | some root =>
          unfold init_config_dir at h ⊢
          simp only at h ⊢
          cases hex : fs.pathExists (root.push "tuifeed/") with
          | true =>
              rw [hex] at h
              simp only at h
              have hpp : p = root.push "tuifeed/" :=
                (Option.some.inj (Except.ok.inj h)).symm
              subst hpp
              simp [hex]
          | false =>
              rw [hex] at h
              cases hcd : fs.create_dir (root.push "tuifeed/") with
              | error e => rw [hcd] at h; simp at h
              | ok fs2 =>
                  rw [hcd] at h
                  simp only at h
                  have hpp : p = root.push "tuifeed/" :=
                    (Option.some.inj (Except.ok.inj h)).symm
                  subst hpp
                  have hex2 : fs2.pathExists (root.push "tuifeed/") = true :=
                    pathExists_create_dir rfl hcd
                  simp [hex, hcd, hex2]

/-- C3 (witness): the amended claim at the fresh `/tmp` configuration —
the second call returns the same `/tmp/tuifeed/` path and its trace is the
single existence probe. -/
theorem init_config_dir_second_call_witness :
    (init_config_dir (some ⟨["tmp"], false⟩)
        (init_config_dir (some ⟨["tmp"], false⟩)
          ⟨none, fsTmpOnly⟩).2.1).1 =
      Except.ok (some ⟨["tmp", "tuifeed"], true⟩) ∧
    (init_config_dir (some ⟨["tmp"], false⟩)
        (init_config_dir (some ⟨["tmp"], false⟩)
          ⟨none, fsTmpOnly⟩).2.1).2.2 =
      [FsOp.existsProbe ⟨["tmp", "tuifeed"], true⟩] :=
  init_config_dir_second_call (some ⟨["tmp"], false⟩) ⟨none, fsTmpOnly⟩
    ⟨["tmp", "tuifeed"], true⟩ (by decide)

/-- C8: when the host platform provides no per-user configuration root,
`init_config_dir` succeeds with the empty result `Ok(None)` — not an
error — and leaves the filesystem untouched. -/
theorem init_config_dir_no_platform_root (fs : FS) :
    (init_config_dir none ⟨none, fs⟩).1 = Except.ok none ∧
    (init_config_dir none ⟨none, fs⟩).2.1.fs = fs := ⟨rfl, rfl⟩

/-- C9: `get_config_file` resolves the path `<dir>/config.toml`; the
source's default template is byte-identical to the spec's; when the file
already exists (whatever entry is stored there) the path is returned with
the filesystem unmodified and its contents unvalidated; when it does not
exist and the write can proceed, the file is created with exactly the
default template bytes and the path returned. -/
theorem get_config_file_spec (dir : RPath) (fs : FS) :
    (dir.push "config.toml").comps = dir.comps ++ ["config.toml"] ∧
    default_config_template = spec_default_template ∧
    (fs.pathExists (dir.push "config.toml") = true →
      get_config_file fs dir = (Except.ok (dir.push "config.toml"), fs,
        [FsOp.existsProbe (dir.push "config.toml")])) ∧
    (fs.pathExists (dir.push "config.toml") = false →
      fs.parentOk (dir.push "config.toml").comps = true →
      get_config_file fs dir = (Except.ok (dir.push "config.toml"),
        ⟨((dir.push "config.toml").comps,
          FsEntry.file default_config_template) :: fs.entries⟩,
        [FsOp.existsProbe (dir.push "config.toml"),
         FsOp.writeFile (dir.push "config.toml")])) := by
  refine ⟨by rw [push_config_toml], rfl, ?_, ?_⟩
  · intro hex
    unfold get_config_file get_config_file_at
    rw [hex]
  · intro hex hpk
    unfold get_config_file get_config_file_at
    rw [hex]
    unfold init_config_file write_file
    rw [if_pos hpk]

/-- C9 (witness): the creation branch at a concrete `/tmp/tuifeed`
directory with no prior `config.toml` — the file is created with the
default template and the resolved path returned. -/
theorem get_config_file_spec_witness :
    get_config_file
        (⟨[(["tmp", "tuifeed"], FsEntry.dir)]⟩ : FS)
        ⟨["tmp", "tuifeed"], true⟩ =
      (Except.ok (RPath.push ⟨["tmp", "tuifeed"], true⟩ "config.toml"),
       ⟨[((RPath.push ⟨["tmp", "tuifeed"], true⟩ "config.toml").comps,
          FsEntry.file default_config_template),
         (["tmp", "tuifeed"], FsEntry.dir)]⟩,
       [FsOp.existsProbe (RPath.push ⟨["tmp", "tuifeed"], true⟩ "config.toml"),
        FsOp.writeFile (RPath.push ⟨["tmp", "tuifeed"], true⟩ "config.toml")]) :=
  (get_config_file_spec ⟨["tmp", "tuifeed"], true⟩
    ⟨[(["tmp", "tuifeed"], FsEntry.dir)]⟩).2.2.2 (by decide) (by decide)

end Tuifeed
